import Mathlib

/-!
Verification of the financial derivation engine of the finance-tracker
dashboard (`src/pages/Index.tsx`).

Modelling conventions, chosen to mirror the TypeScript source:

* JavaScript numbers (amounts, hours, rates) are modelled as `ℚ`.
* A JavaScript `Date` is modelled by the two observations the engine uses:
  `epochDay` (days since the Unix epoch, giving `differenceInDays a b =
  a.epochDay - b.epochDay` at the day granularity of the `date-fns` call)
  and `dayOfMonth` (the value of `getDate()`).
* Record ids are produced in the source as `Date.now().toString()`, the
  decimal string of a millisecond timestamp, and are only ever compared
  for equality; they are modelled as the underlying natural number (the
  seed records' ids `'1'`–`'4'` become `1`–`4`).  Decimal printing is
  injective, so equality of the modelled ids coincides with equality of
  the source's strings.
* Optional fields (`bonus?`, `deductions?`) are `Option ℚ`; the source's
  `x || 0` on such a field is `Option.getD x 0` (both send a missing value,
  and an explicit 0, to 0).
-/

namespace FinanceTracker

/-- Transaction kind, source union type `'income' | 'expense'`. -/
inductive TransactionKind where
  | income
  | expense
deriving DecidableEq

/-- Payment status, source union type `'pending' | 'paid' | 'overdue'`. -/
inductive PaymentStatus where
  | pending
  | paid
  | overdue
deriving DecidableEq

/-- Payment kind, source union type `'recurring' | 'credit' | 'debt'`. -/
inductive PaymentKind where
  | recurring
  | credit
  | debt
deriving DecidableEq

/-- A calendar date, reduced to the two observations the engine makes of a
JavaScript `Date`: absolute day index and day-of-month. -/
structure Date where
  epochDay : Int
  dayOfMonth : Nat
deriving DecidableEq

/-- Source interface `Transaction` (Index.tsx lines 771–778). -/
structure Transaction where
  id : Nat
  type : TransactionKind
  category : String
  amount : ℚ
  description : String
  date : Date
deriving DecidableEq

/-- Source interface `Payment` (Index.tsx lines 780–787). -/
structure Payment where
  id : Nat
  name : String
  amount : ℚ
  dueDate : Date
  status : PaymentStatus
  type : PaymentKind
deriving DecidableEq

/-- Source interface `Shift` (Index.tsx lines 789–796). -/
structure Shift where
  id : Nat
  date : Date
  hours : ℚ
  hourlyRate : ℚ
  bonus : Option ℚ
  deductions : Option ℚ
deriving DecidableEq

/-! ### Aggregation engine (source lines 851–866) -/

/-- Source: `transactions.filter(t => t.type === 'income').reduce((sum, t) => sum + t.amount, 0)`. -/
def totalIncome (transactions : List Transaction) : ℚ :=
  (transactions.filter (fun t => t.type == TransactionKind.income)).foldl
    (fun sum t => sum + t.amount) 0

/-- Source: `transactions.filter(t => t.type === 'expense').reduce((sum, t) => sum + t.amount, 0)`. -/
def totalExpenses (transactions : List Transaction) : ℚ :=
  (transactions.filter (fun t => t.type == TransactionKind.expense)).foldl
    (fun sum t => sum + t.amount) 0

/-- Source: `const balance = totalIncome - totalExpenses`. -/
def balance (transactions : List Transaction) : ℚ :=
  totalIncome transactions - totalExpenses transactions

/-- Spec-side definition (§4.3): `totalByKind(transactions, kind)` is the sum
of the amounts of the transactions of the given kind.  Used to compare the
source's `totalIncome`/`totalExpenses` against the spec's vocabulary. -/
def totalByKind (transactions : List Transaction) (kind : TransactionKind) : ℚ :=
  ((transactions.filter (fun t => t.type == kind)).map Transaction.amount).sum

/-- Source: `shifts.filter(s => s.date.getDate() >= 30 || s.date.getDate() <= 14)`. -/
def salaryPeriod1 (shifts : List Shift) : List Shift :=
  shifts.filter (fun s => decide (30 ≤ s.date.dayOfMonth) || decide (s.date.dayOfMonth ≤ 14))

/-- Source: `shifts.filter(s => s.date.getDate() >= 15 && s.date.getDate() <= 29)`. -/
def salaryPeriod2 (shifts : List Shift) : List Shift :=
  shifts.filter (fun s => decide (15 ≤ s.date.dayOfMonth) && decide (s.date.dayOfMonth ≤ 29))

/-- Source (lines 859–866): reduce over the shifts, adding
`hours*hourlyRate + (bonus || 0) - (deductions || 0)` for each shift. -/
def calculateSalary (shifts : List Shift) : ℚ :=
  shifts.foldl
    (fun total shift =>
      total + shift.hours * shift.hourlyRate + shift.bonus.getD 0 - shift.deductions.getD 0)
    0

/-- Per-shift derived total, as rendered by the source's shift table row:
`shift.hours * shift.hourlyRate + (shift.bonus || 0) - (shift.deductions || 0)`. -/
def shiftTotal (shift : Shift) : ℚ :=
  shift.hours * shift.hourlyRate + shift.bonus.getD 0 - shift.deductions.getD 0

/-! ### Helper lemmas -/

theorem foldl_add_eq_sum (f : Transaction → ℚ) :
    ∀ (l : List Transaction) (init : ℚ),
      l.foldl (fun sum t => sum + f t) init = init + (l.map f).sum := by
  intro l
  induction l with
  | nil => intro init; simp
  | cons x xs ih =>
      intro init
      simp only [List.foldl_cons, List.map_cons, List.sum_cons, ih]
      ring

theorem foldl_shift_eq_sum :
    ∀ (l : List Shift) (init : ℚ),
      l.foldl
        (fun total shift =>
          total + shift.hours * shift.hourlyRate + shift.bonus.getD 0 - shift.deductions.getD 0)
        init = init + (l.map shiftTotal).sum := by
  intro l
  induction l with
  | nil => intro init; simp
  | cons x xs ih =>
      intro init
      simp only [List.foldl_cons, List.map_cons, List.sum_cons, ih, shiftTotal]
      ring

theorem totalIncome_eq_totalByKind (transactions : List Transaction) :
    totalIncome transactions = totalByKind transactions TransactionKind.income := by
  simp [totalIncome, totalByKind, foldl_add_eq_sum Transaction.amount]

theorem totalExpenses_eq_totalByKind (transactions : List Transaction) :
    totalExpenses transactions = totalByKind transactions TransactionKind.expense := by
  simp [totalExpenses, totalByKind, foldl_add_eq_sum Transaction.amount]

/-! ### Claims about the aggregation engine -/

/-- C1: the salary period classifier puts a shift in Period 1 exactly when its
date's day-of-month is ≥ 30 or ≤ 14, and in Period 2 exactly when the
day-of-month is in [15, 29]; day 14 goes to Period 1, day 15 to Period 2,
day 30 to Period 1, and every day-of-month (in particular every day from 1
to 31) lands in exactly one of the two periods. -/
theorem salaryPeriod_classification :
    (∀ (shifts : List Shift) (s : Shift),
      s ∈ salaryPeriod1 shifts ↔ s ∈ shifts ∧ (30 ≤ s.date.dayOfMonth ∨ s.date.dayOfMonth ≤ 14))
    ∧ (∀ (shifts : List Shift) (s : Shift),
      s ∈ salaryPeriod2 shifts ↔ s ∈ shifts ∧ (15 ≤ s.date.dayOfMonth ∧ s.date.dayOfMonth ≤ 29))
    ∧ (∀ s : Shift, s.date.dayOfMonth = 14 → ∀ shifts, s ∈ shifts → s ∈ salaryPeriod1 shifts)
    ∧ (∀ s : Shift, s.date.dayOfMonth = 15 → ∀ shifts, s ∈ shifts → s ∈ salaryPeriod2 shifts)
    ∧ (∀ s : Shift, s.date.dayOfMonth = 30 → ∀ shifts, s ∈ shifts → s ∈ salaryPeriod1 shifts)
    ∧ (∀ d : Nat,
        (30 ≤ d ∨ d ≤ 14) ↔ ¬(15 ≤ d ∧ d ≤ 29)) := by
  refine ⟨?_, ?_, ?_, ?_, ?_, ?_⟩
  · intro shifts s
    simp [salaryPeriod1, List.mem_filter]
  · intro shifts s
    simp [salaryPeriod2, List.mem_filter]
  · intro s hd shifts hs
    simp [salaryPeriod1, List.mem_filter, hd]
    exact hs
  · intro s hd shifts hs
    simp [salaryPeriod2, List.mem_filter, hd]
    exact hs
  · intro s hd shifts hs
    simp [salaryPeriod1, List.mem_filter, hd]
    exact hs
  · intro d
    omega

/-- C3: the balance of a transaction collection is the income total minus the
expense total, where `totalByKind` sums the amounts of the transactions of
the given kind; the empty collection has balance 0 and totals 0. -/
theorem balance_eq_income_sub_expenses :
    (∀ transactions : List Transaction,
      balance transactions =
        totalByKind transactions TransactionKind.income -
          totalByKind transactions TransactionKind.expense)
    ∧ balance [] = 0
    ∧ (∀ kind, totalByKind [] kind = 0) := by
  refine ⟨?_, ?_, ?_⟩
  · intro transactions
    rw [balance, totalIncome_eq_totalByKind, totalExpenses_eq_totalByKind]
  · simp [balance, totalIncome, totalExpenses]
  · intro kind; simp [totalByKind]

/-- C4: the derived total of a shift is `hours * hourlyRate + (bonus defaulted
to 0) - (deductions defaulted to 0)`; a shift of 8 hours at rate 800 with
bonus 2000 totals 8400 and a shift of 6 hours at rate 800 with deductions 300
totals 4500; the salary of a list of shifts is the sum of the per-shift
totals, and the empty list's salary is 0. -/
theorem calculateSalary_spec :
    (∀ s : Shift,
      shiftTotal s = s.hours * s.hourlyRate + s.bonus.getD 0 - s.deductions.getD 0)
    ∧ shiftTotal
        { id := 1, date := { epochDay := 20103, dayOfMonth := 15 },
          hours := 8, hourlyRate := 800, bonus := some 2000, deductions := none } = 8400
    ∧ shiftTotal
        { id := 3, date := { epochDay := 20105, dayOfMonth := 17 },
          hours := 6, hourlyRate := 800, bonus := none, deductions := some 300 } = 4500
    ∧ (∀ shifts : List Shift, calculateSalary shifts = (shifts.map shiftTotal).sum)
    ∧ calculateSalary [] = 0 := by
  refine ⟨fun s => rfl, by norm_num [shiftTotal], by norm_num [shiftTotal], ?_, rfl⟩
  intro shifts
  simp [calculateSalary, foldl_shift_eq_sum]

/-! ### Due-payment notifier (source lines 869–888) -/

/-- Severity of a due-payment notification.  The source stores it in the
notification's `type` field with literals `'error'` and `'warning'`; the
spec names the `'error'` case "critical". -/
inductive NotificationSeverity where
  | critical
  | warning
deriving DecidableEq

/-- Source notification record `{id, message, type}` held in the
`notifications` state. -/
structure AppNotification where
  id : Nat
  message : String
  severity : NotificationSeverity
deriving DecidableEq

/-- date-fns `differenceInDays(a, b)`: the number of whole days from `b` to
`a`, exact at the day granularity of the model. -/
def differenceInDays (a b : Date) : Int :=
  a.epochDay - b.epochDay

/-- Notification message template of the source (line 880), with the
locale-aware `toLocaleString('ru-RU')` abstracted to plain printing. -/
def notificationMessage (payment : Payment) (daysUntilDue : Int) : String :=
  "Платеж \"" ++ payment.name ++ "\" на сумму " ++ toString payment.amount ++
    " ₽ через " ++ toString daysUntilDue ++ " дн."

/-- Mapper of the source's `newNotifications` (lines 878–882): id from the
payment, templated message, severity critical ('error') when due today and
warning otherwise. -/
def mkNotification (today : Date) (payment : Payment) : AppNotification :=
  { id := payment.id
    message := notificationMessage payment (differenceInDays payment.dueDate today)
    severity :=
      if differenceInDays payment.dueDate today == 0 then NotificationSeverity.critical
      else NotificationSeverity.warning }

/-- Source `checkUpcomingPayments` (lines 870–886): drop paid payments,
keep those with `0 <= daysUntilDue <= 3`, and map each to a notification. -/
def checkUpcomingPayments (payments : List Payment) (today : Date) : List AppNotification :=
  let upcomingPayments := payments.filter fun payment =>
    if payment.status == PaymentStatus.paid then false
    else
      decide (differenceInDays payment.dueDate today ≤ 3) &&
        decide (0 ≤ differenceInDays payment.dueDate today)
  upcomingPayments.map (mkNotification today)

/-- C2: a payment yields a notification exactly when it is not paid and its
whole-day distance to the due date lies in [0, 3]; the notification is
critical ('error' in the source) exactly when that distance is 0 and warning
otherwise; and the notification list follows the payments collection order
(it is the image of a sublist of the payment collection). -/
theorem checkUpcomingPayments_spec (payments : List Payment) (today : Date) :
    (∀ n, n ∈ checkUpcomingPayments payments today ↔
      ∃ p, p ∈ payments ∧ p.status ≠ PaymentStatus.paid ∧
        0 ≤ differenceInDays p.dueDate today ∧ differenceInDays p.dueDate today ≤ 3 ∧
        n = mkNotification today p)
    ∧ (∀ p : Payment,
        ((mkNotification today p).severity = NotificationSeverity.critical ↔
          differenceInDays p.dueDate today = 0))
    ∧ List.Sublist (checkUpcomingPayments payments today)
        (payments.map (mkNotification today)) := by
  refine ⟨?_, ?_, ?_⟩
  · intro n
    simp only [checkUpcomingPayments, List.mem_map, List.mem_filter]
    constructor
    · rintro ⟨p, ⟨hp, hpred⟩, hn⟩
      by_cases hpaid : p.status = PaymentStatus.paid
      · simp [hpaid] at hpred
      · simp only [beq_iff_eq, hpaid, if_false, Bool.and_eq_true, decide_eq_true_eq] at hpred
        exact ⟨p, hp, hpaid, hpred.2, hpred.1, hn.symm⟩
    · rintro ⟨p, hp, hpaid, h0, h3, hn⟩
      refine ⟨p, ⟨hp, ?_⟩, hn.symm⟩
      simp [beq_iff_eq, hpaid, h0, h3]
  · intro p
    by_cases h : differenceInDays p.dueDate today = 0
    · simp [mkNotification, h]
    · simp [mkNotification, h]
  · exact List.Sublist.map _ (List.filter_sublist payments)

/-! ### Validation layer and record store (source lines 798–944) -/

/-- Candidate transaction, source `TransactionForm = z.infer<typeof transactionSchema>`. -/
structure TransactionForm where
  type : TransactionKind
  category : String
  amount : ℚ
  description : String
  date : Date
deriving DecidableEq

/-- Candidate shift, source `ShiftForm`. -/
structure ShiftForm where
  date : Date
  hours : ℚ
  hourlyRate : ℚ
  bonus : Option ℚ
  deductions : Option ℚ
deriving DecidableEq

/-- Candidate payment, source `PaymentForm`. -/
structure PaymentForm where
  name : String
  amount : ℚ
  dueDate : Date
  type : PaymentKind
deriving DecidableEq

/-- Error taxonomy of the spec (§7).  The source surfaces only validation
failures (zod schema errors shown by the form resolver); it has no code path
producing a not-found or invalid-transition failure — the theorems below
establish that those constructors are never produced. -/
inductive StoreError where
  | validationError (field : String) (message : String)
  | notFoundError
  | invalidTransitionError
deriving DecidableEq

/-- Source `transactionSchema` (lines 799–805): category and description
non-empty (`z.string().min(1)`), amount at least 1 (`z.number().min(1)`);
the kind and date fields are enforced by typing.  Returns the first violated
field's error, in the schema's field order. -/
def transactionSchemaCheck (c : TransactionForm) : Option StoreError :=
  if c.category = "" then some (StoreError.validationError "category" "Выберите категорию")
  else if c.amount < 1 then some (StoreError.validationError "amount" "Сумма должна быть больше 0")
  else if c.description = "" then some (StoreError.validationError "description" "Введите описание")
  else none

/-- Source `shiftSchema` (lines 807–813): hours and hourlyRate at least 1;
bonus and deductions unconstrained optionals. -/
def shiftSchemaCheck (c : ShiftForm) : Option StoreError :=
  if c.hours < 1 then some (StoreError.validationError "hours" "Часы должны быть больше 0")
  else if c.hourlyRate < 1 then some (StoreError.validationError "hourlyRate" "Ставка должна быть больше 0")
  else none

/-- Source `paymentSchema` (lines 815–820): name non-empty, amount at least 1. -/
def paymentSchemaCheck (c : PaymentForm) : Option StoreError :=
  if c.name = "" then some (StoreError.validationError "name" "Введите название")
  else if c.amount < 1 then some (StoreError.validationError "amount" "Сумма должна быть больше 0")
  else none

/-- The three entity collections held by the component's state. -/
structure Store where
  transactions : List Transaction
  payments : List Payment
  shifts : List Shift
deriving DecidableEq

/-- Seed state of the component (source lines 831–850); epoch days computed
from the literal dates (2025-01-01 is epoch day 20089). -/
def initialStore : Store :=
  { transactions :=
      [ { id := 1, type := TransactionKind.income, category := "Зарплата", amount := 85000,
          description := "Основная зарплата", date := { epochDay := 20103, dayOfMonth := 15 } }
      , { id := 2, type := TransactionKind.expense, category := "ЖКХ", amount := 8500,
          description := "Коммунальные услуги", date := { epochDay := 20098, dayOfMonth := 10 } }
      , { id := 3, type := TransactionKind.expense, category := "Продукты", amount := 12000,
          description := "Продуктовые покупки", date := { epochDay := 20096, dayOfMonth := 8 } }
      , { id := 4, type := TransactionKind.income, category := "Фриланс", amount := 25000,
          description := "Дополнительный доход", date := { epochDay := 20108, dayOfMonth := 20 } } ]
    payments :=
      [ { id := 1, name := "ЖКХ", amount := 8500, dueDate := { epochDay := 20129, dayOfMonth := 10 },
          status := PaymentStatus.pending, type := PaymentKind.recurring }
      , { id := 2, name := "Кредит банк", amount := 15000, dueDate := { epochDay := 20124, dayOfMonth := 5 },
          status := PaymentStatus.pending, type := PaymentKind.credit }
      , { id := 3, name := "Интернет", amount := 1200, dueDate := { epochDay := 20120, dayOfMonth := 1 },
          status := PaymentStatus.overdue, type := PaymentKind.recurring }
      , { id := 4, name := "Мобильная связь", amount := 800, dueDate := { epochDay := 20122, dayOfMonth := 3 },
          status := PaymentStatus.paid, type := PaymentKind.recurring } ]
    shifts :=
      [ { id := 1, date := { epochDay := 20103, dayOfMonth := 15 }, hours := 8, hourlyRate := 800,
          bonus := some 2000, deductions := none }
      , { id := 2, date := { epochDay := 20104, dayOfMonth := 16 }, hours := 8, hourlyRate := 800,
          bonus := none, deductions := none }
      , { id := 3, date := { epochDay := 20105, dayOfMonth := 17 }, hours := 6, hourlyRate := 800,
          bonus := none, deductions := some 300 }
      , { id := 4, date := { epochDay := 20106, dayOfMonth := 18 }, hours := 8, hourlyRate := 800,
          bonus := some 1000, deductions := none } ] }

/-- Record built by the source `addTransaction` handler (lines 900–904):
id `Date.now().toString()` — modelled by the numeric timestamp `now` — spread
with the form data. -/
def mkTransaction (now : Nat) (data : TransactionForm) : Transaction :=
  { id := now, type := data.type, category := data.category, amount := data.amount,
    description := data.description, date := data.date }

/-- Record built by the source `addShift` handler (lines 913–917). -/
def mkShift (now : Nat) (data : ShiftForm) : Shift :=
  { id := now, date := data.date, hours := data.hours, hourlyRate := data.hourlyRate,
    bonus := data.bonus, deductions := data.deductions }

/-- Record built by the source `addPayment` handler (lines 925–929): the
status field is forced to `'pending'`. -/
def mkPayment (now : Nat) (data : PaymentForm) : Payment :=
  { id := now, name := data.name, amount := data.amount, dueDate := data.dueDate,
    status := PaymentStatus.pending, type := data.type }

/-- Validated transaction submission: the form's zod resolver runs
`transactionSchema` and invokes the `addTransaction` handler (which prepends
the new record) only when the schema passes (lines 966–975 and 900–910). -/
def addTransaction (s : Store) (now : Nat) (data : TransactionForm) : Except StoreError Store :=
  match transactionSchemaCheck data with
  | some e => Except.error e
  | none => Except.ok { s with transactions := mkTransaction now data :: s.transactions }

/-- Validated shift submission (lines 1042–1051 and 913–921). -/
def addShift (s : Store) (now : Nat) (data : ShiftForm) : Except StoreError Store :=
  match shiftSchemaCheck data with
  | some e => Except.error e
  | none => Except.ok { s with shifts := mkShift now data :: s.shifts }

/-- Validated payment submission (lines 1103–1111 and 924–934). -/
def addPayment (s : Store) (now : Nat) (data : PaymentForm) : Except StoreError Store :=
  match paymentSchemaCheck data with
  | some e => Except.error e
  | none => Except.ok { s with payments := mkPayment now data :: s.payments }

/-- Body of the source `markPaymentAsPaid` handler (lines 937–944): map over
the payments, setting the status of those whose id matches to `'paid'`. -/
def markPaymentAsPaidUpdate (s : Store) (paymentId : Nat) : Store :=
  { s with payments := s.payments.map fun payment =>
      if payment.id == paymentId then { payment with status := PaymentStatus.paid } else payment }

/-- Source `markPaymentAsPaid`, under the spec's fallible interface type
(§4.1).  The handler has no failure path — it never checks whether the id is
present and can only set `'paid'` — so the result is always `ok`. -/
def markPaymentAsPaid (s : Store) (paymentId : Nat) : Except StoreError Store :=
  Except.ok (markPaymentAsPaidUpdate s paymentId)

/-- One user-level mutation of the store, tagged with nothing but its form
data (adds) or target id (mark-paid). -/
inductive Op where
  | transactionOp (data : TransactionForm)
  | shiftOp (data : ShiftForm)
  | paymentOp (data : PaymentForm)
  | markPaidOp (paymentId : Nat)
deriving DecidableEq

/-- Apply one operation at timestamp `now` (the value of `Date.now()` during
the call); a rejected submission leaves the store unchanged — the resolver
blocks the handler and only the form error display changes. -/
def step (s : Store) (now : Nat) (op : Op) : Store :=
  match op with
  | Op.transactionOp data =>
      match addTransaction s now data with
      | Except.ok s' => s'
      | Except.error _ => s
  | Op.shiftOp data =>
      match addShift s now data with
      | Except.ok s' => s'
      | Except.error _ => s
  | Op.paymentOp data =>
      match addPayment s now data with
      | Except.ok s' => s'
      | Except.error _ => s
  | Op.markPaidOp paymentId => markPaymentAsPaidUpdate s paymentId

/-- Run a timed sequence of operations from a state. -/
def run (s : Store) (events : List (Nat × Op)) : Store :=
  events.foldl (fun s e => step s e.1 e.2) s

/-! ### Validation and error-handling claims -/

theorem transactionSchemaCheck_none_iff (c : TransactionForm) :
    transactionSchemaCheck c = none ↔
      1 ≤ c.amount ∧ c.category ≠ "" ∧ c.description ≠ "" := by
  unfold transactionSchemaCheck
  split_ifs with h1 h2 h3 <;> simp_all [not_le]

/-- Candidate transaction with a positive fractional amount, used to separate
the spec's "amount > 0" from the schema's "amount ≥ 1". -/
def halfAmountForm : TransactionForm :=
  { type := TransactionKind.expense, category := "food", amount := 1/2,
    description := "snack", date := { epochDay := 20103, dayOfMonth := 15 } }

/-- C5 counterexample: a candidate with the positive amount 1/2 and all
required fields non-empty is rejected by the source schema's
`z.number().min(1)`, so the validation does not accept every amount > 0 —
it demands amount ≥ 1. -/
theorem addTransaction_rejects_positive_half :
    0 < halfAmountForm.amount ∧ halfAmountForm.category ≠ "" ∧
    halfAmountForm.description ≠ "" ∧
    addTransaction initialStore 1000 halfAmountForm =
      Except.error (StoreError.validationError "amount" "Сумма должна быть больше 0") := by
  refine ⟨by norm_num [halfAmountForm], by decide, by decide, ?_⟩
  have : transactionSchemaCheck halfAmountForm =
      some (StoreError.validationError "amount" "Сумма должна быть больше 0") := by
    unfold transactionSchemaCheck halfAmountForm
    rw [if_neg (by decide), if_pos (by norm_num)]
  simp [addTransaction, this]

/-- C5 (amended): a transaction submission fails with a validation error
exactly when the candidate violates the source schema — amount at least 1
(the schema's `min(1)`: amounts in (0, 1) are also rejected, despite being
positive), non-empty category and description, the kind within
{income, expense} being enforced by typing; an accepted candidate is stored
and prepended, all previously stored transactions following unchanged and
the other collections untouched. -/
theorem addTransaction_validation (s : Store) (now : Nat) (data : TransactionForm) :
    ((∃ e, addTransaction s now data = Except.error e) ↔
      ¬(1 ≤ data.amount ∧ data.category ≠ "" ∧ data.description ≠ ""))
    ∧ (1 ≤ data.amount → data.category ≠ "" → data.description ≠ "" →
        addTransaction s now data =
          Except.ok { s with transactions := mkTransaction now data :: s.transactions }) := by
  constructor
  · constructor
    · rintro ⟨e, he⟩ hvalid
      rw [addTransaction, (transactionSchemaCheck_none_iff data).mpr hvalid] at he
      cases he
    · intro hnv
      cases h : transactionSchemaCheck data with
      | none => exact absurd ((transactionSchemaCheck_none_iff data).mp h) hnv
      | some e => exact ⟨e, by rw [addTransaction, h]⟩
  · intro ha hcat hdesc
    rw [addTransaction, (transactionSchemaCheck_none_iff data).mpr ⟨ha, hcat, hdesc⟩]

/-- Candidate transaction with amount exactly 1, the boundary value the spec
designates as accepted. -/
def unitAmountForm : TransactionForm :=
  { type := TransactionKind.income, category := "salary", amount := 1,
    description := "tip", date := { epochDay := 20110, dayOfMonth := 22 } }

/-- Witness for the amended C5: the amount-1 candidate is accepted on the
seed store and lands at the head of the transaction collection with the four
seed transactions unchanged behind it. -/
theorem addTransaction_validation_witness :
    addTransaction initialStore 1000 unitAmountForm =
      Except.ok { initialStore with
        transactions := mkTransaction 1000 unitAmountForm :: initialStore.transactions } :=
  (addTransaction_validation initialStore 1000 unitAmountForm).2
    (by norm_num [unitAmountForm]) (by decide) (by decide)

/-- C8: a payment candidate passing validation (non-empty name, amount at
least 1) is stored with its status forced to `'pending'`, whatever the
candidate contains, and the stored record is prepended to the payment
collection with the other collections untouched. -/
theorem addPayment_forces_pending (s : Store) (now : Nat) (data : PaymentForm)
    (hname : data.name ≠ "") (hamount : 1 ≤ data.amount) :
    addPayment s now data =
      Except.ok { s with payments := mkPayment now data :: s.payments }
    ∧ (mkPayment now data).status = PaymentStatus.pending := by
  refine ⟨?_, rfl⟩
  unfold addPayment paymentSchemaCheck
  rw [if_neg hname, if_neg (not_lt.mpr hamount)]

/-- Concrete payment candidate used by the C8 witness. -/
def internetForm : PaymentForm :=
  { name := "Интернет", amount := 1200,
    dueDate := { epochDay := 20148, dayOfMonth := 1 }, type := PaymentKind.recurring }

/-- Witness for C8 at a concrete candidate and the seed store. -/
theorem addPayment_forces_pending_witness :
    addPayment initialStore 2000 internetForm =
      Except.ok { initialStore with
        payments := mkPayment 2000 internetForm :: initialStore.payments }
    ∧ (mkPayment 2000 internetForm).status = PaymentStatus.pending :=
  addPayment_forces_pending initialStore 2000 internetForm (by decide) (by norm_num [internetForm])

/-- C7 counterexample: id 99 is absent from the seed store's payments, yet
marking it paid does not fail with a NotFoundError — the call returns
successfully with every collection unchanged (the source handler never
checks for presence and has no failure path). -/
theorem markPaymentAsPaid_absent_no_error :
    (99 ∉ initialStore.payments.map Payment.id) ∧
    markPaymentAsPaid initialStore 99 = Except.ok initialStore :=
  ⟨by decide, rfl⟩

/-- C7 (amended): marking an absent payment id as paid leaves every
collection unchanged, but the operation succeeds silently — the source
raises no NotFoundError, having no failure path at all. -/
theorem markPaymentAsPaid_absent_id (s : Store) (paymentId : Nat)
    (h : paymentId ∉ s.payments.map Payment.id) :
    markPaymentAsPaid s paymentId = Except.ok s := by
  unfold markPaymentAsPaid markPaymentAsPaidUpdate
  have hmap : ∀ p ∈ s.payments,
      (if p.id == paymentId then { p with status := PaymentStatus.paid } else p) = id p := by
    intro p hp
    have hne : p.id ≠ paymentId := fun he => h (he ▸ List.mem_map_of_mem Payment.id hp)
    simp [hne]
  rw [List.map_congr_left hmap, List.map_id]

/-- Witness for the amended C7 at the seed store and the absent id 99. -/
theorem markPaymentAsPaid_absent_id_witness :
    markPaymentAsPaid initialStore 99 = Except.ok initialStore :=
  markPaymentAsPaid_absent_id initialStore 99 (by decide)

/-! ### Temporal invariant: paid payments stay paid (C6) -/

theorem payment_update_self (p : Payment) (paymentId : Nat)
    (hpaid : p.status = PaymentStatus.paid) :
    (if p.id == paymentId then { p with status := PaymentStatus.paid } else p) = p := by
  split
  · cases p
    simp_all
  · rfl

theorem step_preserves_paid (s : Store) (now : Nat) (op : Op) (p : Payment)
    (hp : p ∈ s.payments) (hpaid : p.status = PaymentStatus.paid) :
    p ∈ (step s now op).payments := by
  cases op with
  | transactionOp data =>
      cases h : transactionSchemaCheck data <;> simp [step, addTransaction, h, hp]
  | shiftOp data =>
      cases h : shiftSchemaCheck data <;> simp [step, addShift, h, hp]
  | paymentOp data =>
      cases h : paymentSchemaCheck data <;> simp [step, addPayment, h, hp]
  | markPaidOp paymentId =>
      show p ∈ (markPaymentAsPaidUpdate s paymentId).payments
      simp only [markPaymentAsPaidUpdate, List.mem_map]
      exact ⟨p, hp, payment_update_self p paymentId hpaid⟩

/-- C6 (amended): in every state reachable from any state by any sequence of
the four operations, a payment record that is paid persists verbatim — its
status never returns to pending or overdue.  The code's only status mutation
can only set `'paid'`; no operation can request `'pending'`, and re-marking a
paid payment is a silent no-op — no InvalidTransitionError is raised (see the
counterexample theorem). -/
theorem paid_payment_stays_paid (s : Store) (events : List (Nat × Op)) (p : Payment)
    (hp : p ∈ s.payments) (hpaid : p.status = PaymentStatus.paid) :
    p ∈ (run s events).payments := by
  induction events generalizing s with
  | nil => exact hp
  | cons e rest ih =>
      simp only [run, List.foldl_cons]
      exact ih (step s e.1 e.2) (step_preserves_paid s e.1 e.2 p hp hpaid)

/-- C6 counterexample: mark the pending payment 2 of the seed store as paid,
then attempt the status change again — the second call does not fail with an
InvalidTransitionError (no such error exists in the code and the handler is
infallible); it succeeds, leaves the state unchanged, and the payment's
status is still `'paid'`. -/
theorem markPaymentAsPaid_repeat_no_error :
    markPaymentAsPaid (markPaymentAsPaidUpdate initialStore 2) 2 =
      Except.ok (markPaymentAsPaidUpdate initialStore 2)
    ∧ ((markPaymentAsPaidUpdate initialStore 2).payments.filter
        (fun p => p.id == 2)).map Payment.status = [PaymentStatus.paid] := by
  constructor
  · rw [markPaymentAsPaid]
    exact congrArg Except.ok (by decide)
  · decide

/-- Concrete payment candidate used by the C6 witness trace. -/
def phoneForm : PaymentForm :=
  { name := "Телефон", amount := 900,
    dueDate := { epochDay := 20150, dayOfMonth := 3 }, type := PaymentKind.recurring }

/-- Witness for the amended C6: the seed store's paid payment (id 4) is still
present, still paid, after a concrete sequence of operations. -/
theorem paid_payment_stays_paid_witness :
    ({ id := 4, name := "Мобильная связь", amount := 800,
       dueDate := { epochDay := 20122, dayOfMonth := 3 },
       status := PaymentStatus.paid, type := PaymentKind.recurring } : Payment) ∈
      (run initialStore [(1000, Op.markPaidOp 1), (2000, Op.paymentOp phoneForm)]).payments :=
  paid_payment_stays_paid initialStore
    [(1000, Op.markPaidOp 1), (2000, Op.paymentOp phoneForm)] _ (by decide) (by decide)

/-! ### Identifier freshness (C9) -/

/-- All record ids of the store lie below the bound `t`. -/
def idsBelow (s : Store) (t : Nat) : Prop :=
  (∀ x ∈ s.transactions, x.id < t) ∧ (∀ x ∈ s.payments, x.id < t) ∧
    (∀ x ∈ s.shifts, x.id < t)

/-- Each collection of the store carries pairwise-distinct ids. -/
def noDupIds (s : Store) : Prop :=
  (s.transactions.map Transaction.id).Nodup ∧ (s.payments.map Payment.id).Nodup ∧
    (s.shifts.map Shift.id).Nodup

/-- The event timestamps are at least the bound and strictly increasing —
each call to `Date.now()` returns a strictly later millisecond. -/
def timestampsIncreasingFrom : Nat → List (Nat × Op) → Bool
  | _, [] => true
  | t, e :: rest => decide (t ≤ e.1) && timestampsIncreasingFrom (e.1 + 1) rest

theorem markPaid_preserves_ids (l : List Payment) (paymentId : Nat) :
    (l.map fun payment =>
      if payment.id == paymentId then { payment with status := PaymentStatus.paid }
      else payment).map Payment.id = l.map Payment.id := by
  rw [List.map_map]
  apply List.map_congr_left
  intro p _
  by_cases h : p.id == paymentId <;> simp [h, Function.comp]

theorem step_fresh (s : Store) (now t : Nat) (op : Op) (ht : t ≤ now)
    (hb : idsBelow s t) (hd : noDupIds s) :
    idsBelow (step s now op) (now + 1) ∧ noDupIds (step s now op) := by
  obtain ⟨hbt, hbp, hbs⟩ := hb
  obtain ⟨hdt, hdp, hds⟩ := hd
  have lift : ∀ {α : Type} (f : α → Nat) (l : List α),
      (∀ x ∈ l, f x < t) → ∀ x ∈ l, f x < now + 1 :=
    fun f l hl x hx => lt_of_lt_of_le (hl x hx) (by omega)
  have fresh : ∀ {α : Type} (f : α → Nat) (l : List α),
      (∀ x ∈ l, f x < t) → now ∉ l.map f := by
    intro α f l hl hmem
    obtain ⟨x, hx, hfx⟩ := List.mem_map.mp hmem
    exact absurd (hfx ▸ hl x hx) (by omega)
  cases op with
  | transactionOp data =>
      cases h : transactionSchemaCheck data with
      | some e =>
          have hs : step s now (Op.transactionOp data) = s := by
            simp [step, addTransaction, h]
          rw [hs]
          exact ⟨⟨lift _ _ hbt, lift _ _ hbp, lift _ _ hbs⟩, hdt, hdp, hds⟩
      | none =>
          have hs : step s now (Op.transactionOp data) =
              { s with transactions := mkTransaction now data :: s.transactions } := by
            simp [step, addTransaction, h]
          rw [hs]
          refine ⟨⟨?_, lift _ _ hbp, lift _ _ hbs⟩, ?_, hdp, hds⟩
          · intro x hx
            rcases List.mem_cons.mp hx with hx | hx
            · rw [hx]; exact Nat.lt_succ_self now
            · exact lift _ _ hbt x hx
          · simp only [List.map_cons, List.nodup_cons]
            exact ⟨fresh Transaction.id _ hbt, hdt⟩
  | shiftOp data =>
      cases h : shiftSchemaCheck data with
      | some e =>
          have hs : step s now (Op.shiftOp data) = s := by
            simp [step, addShift, h]
          rw [hs]
          exact ⟨⟨lift _ _ hbt, lift _ _ hbp, lift _ _ hbs⟩, hdt, hdp, hds⟩
      | none =>
          have hs : step s now (Op.shiftOp data) =
              { s with shifts := mkShift now data :: s.shifts } := by
            simp [step, addShift, h]
          rw [hs]
          refine ⟨⟨lift _ _ hbt, lift _ _ hbp, ?_⟩, hdt, hdp, ?_⟩
          · intro x hx
            rcases List.mem_cons.mp hx with hx | hx
            · rw [hx]; exact Nat.lt_succ_self now
            · exact lift _ _ hbs x hx
          · simp only [List.map_cons, List.nodup_cons]
            exact ⟨fresh Shift.id _ hbs, hds⟩
  | paymentOp data =>
      cases h : paymentSchemaCheck data with
      | some e =>
          have hs : step s now (Op.paymentOp data) = s := by
            simp [step, addPayment, h]
          rw [hs]
          exact ⟨⟨lift _ _ hbt, lift _ _ hbp, lift _ _ hbs⟩, hdt, hdp, hds⟩
      | none =>
          have hs : step s now (Op.paymentOp data) =
              { s with payments := mkPayment now data :: s.payments } := by
            simp [step, addPayment, h]
          rw [hs]
          refine ⟨⟨lift _ _ hbt, ?_, lift _ _ hbs⟩, hdt, ?_, hds⟩
          · intro x hx
            rcases List.mem_cons.mp hx with hx | hx
            · rw [hx]; exact Nat.lt_succ_self now
            · exact lift _ _ hbp x hx
          · simp only [List.map_cons, List.nodup_cons]
            exact ⟨fresh Payment.id _ hbp, hdp⟩
  | markPaidOp paymentId =>
      refine ⟨⟨lift _ _ hbt, ?_, lift _ _ hbs⟩, hdt, ?_, hds⟩
      · intro x hx
        simp only [step, markPaymentAsPaidUpdate, List.mem_map] at hx
        obtain ⟨p, hp, rfl⟩ := hx
        have hid :
            (if p.id == paymentId then { p with status := PaymentStatus.paid } else p).id =
              p.id := by
          by_cases h : p.id = paymentId <;> simp [h]
        rw [hid]
        exact lift Payment.id _ hbp p hp
      · show ((markPaymentAsPaidUpdate s paymentId).payments.map Payment.id).Nodup
        unfold markPaymentAsPaidUpdate
        rw [markPaid_preserves_ids]
        exact hdp

theorem run_fresh (events : List (Nat × Op)) :
    ∀ (s : Store) (t : Nat), idsBelow s t → noDupIds s →
      timestampsIncreasingFrom t events = true → noDupIds (run s events) := by
  induction events with
  | nil => intro s t _ hd _; exact hd
  | cons e rest ih =>
      intro s t hb hd hts
      rw [timestampsIncreasingFrom, Bool.and_eq_true, decide_eq_true_eq] at hts
      simp only [run, List.foldl_cons]
      exact ih (step s e.1 e.2) (e.1 + 1)
        (step_fresh s e.1 t e.2 hts.1 hb hd).1
        (step_fresh s e.1 t e.2 hts.1 hb hd).2 hts.2

/-- C9 (amended): starting from the seed store (whose ids are 1–4), every
sequence of operations whose `Date.now()` timestamps are strictly increasing
and later than every seed id yields collections with pairwise-distinct ids.
Freshness is not unconditional: the id is the add's timestamp, so two adds
in the same millisecond receive the same id (see the counterexample). -/
theorem fresh_ids_of_increasing_timestamps (events : List (Nat × Op))
    (h : timestampsIncreasingFrom 5 events = true) :
    noDupIds (run initialStore events) :=
  run_fresh events initialStore 5 (by unfold idsBelow; decide) (by unfold noDupIds; decide) h

/-- Concrete payment candidate used by the C9 counterexample trace. -/
def rentForm : PaymentForm :=
  { name := "Аренда", amount := 100,
    dueDate := { epochDay := 20130, dayOfMonth := 11 }, type := PaymentKind.recurring }

/-- C9 counterexample: two valid payment submissions during the same
millisecond (both see `Date.now() = 1000`) store two records with the same
id 1000 — the second record's id is not distinct from an id already present
in the collection, so ids are not unconditionally fresh. -/
theorem duplicate_ids_same_millisecond :
    ((run initialStore [(1000, Op.paymentOp rentForm), (1000, Op.paymentOp rentForm)]).payments.map
        Payment.id) = [1000, 1000, 1, 2, 3, 4]
    ∧ ¬ ((run initialStore
          [(1000, Op.paymentOp rentForm), (1000, Op.paymentOp rentForm)]).payments.map
            Payment.id).Nodup := by
  constructor
  · decide
  · decide

/-- Concrete transaction candidate used by the C9 witness trace. -/
def bonusForm : TransactionForm :=
  { type := TransactionKind.income, category := "Премия", amount := 5000,
    description := "Квартальная премия", date := { epochDay := 20115, dayOfMonth := 27 } }

/-- Witness for the amended C9: a concrete strictly-increasing trace from the
seed store leaves all three collections with pairwise-distinct ids. -/
theorem fresh_ids_witness :
    noDupIds (run initialStore
      [(1000, Op.transactionOp bonusForm), (2000, Op.paymentOp rentForm),
        (3000, Op.markPaidOp 1)]) :=
  fresh_ids_of_increasing_timestamps
    [(1000, Op.transactionOp bonusForm), (2000, Op.paymentOp rentForm),
      (3000, Op.markPaidOp 1)] (by decide)

/-! ### Frame and idempotence of mark-paid (C10) -/

/-- C10: marking a payment id as paid touches nothing but the status of the
payments bearing that id — the transaction and shift collections are
unchanged, the payment collection keeps its length and order, the payment at
each position keeps every field except that its status becomes `'paid'` when
its id matches (and is entirely unchanged otherwise), the operation is
idempotent, and on a store whose matching payments are already paid it
changes nothing at all. -/
theorem markPaymentAsPaid_frame (s : Store) (paymentId : Nat) :
    (markPaymentAsPaidUpdate s paymentId).transactions = s.transactions
    ∧ (markPaymentAsPaidUpdate s paymentId).shifts = s.shifts
    ∧ (markPaymentAsPaidUpdate s paymentId).payments.length = s.payments.length
    ∧ (∀ (k : Nat) (hk : k < s.payments.length)
        (hk' : k < (markPaymentAsPaidUpdate s paymentId).payments.length),
        (markPaymentAsPaidUpdate s paymentId).payments.get ⟨k, hk'⟩ =
          (if (s.payments.get ⟨k, hk⟩).id = paymentId
            then { s.payments.get ⟨k, hk⟩ with status := PaymentStatus.paid }
            else s.payments.get ⟨k, hk⟩))
    ∧ markPaymentAsPaidUpdate (markPaymentAsPaidUpdate s paymentId) paymentId =
        markPaymentAsPaidUpdate s paymentId
    ∧ ((∀ p ∈ s.payments, p.id = paymentId → p.status = PaymentStatus.paid) →
        markPaymentAsPaidUpdate s paymentId = s) := by
  refine ⟨rfl, rfl, by simp [markPaymentAsPaidUpdate], ?_, ?_, ?_⟩
  · intro k hk hk'
    simp only [markPaymentAsPaidUpdate, List.get_eq_getElem, List.getElem_map]
    by_cases h : (s.payments.get ⟨k, hk⟩).id = paymentId <;> simp [h]
  · simp only [markPaymentAsPaidUpdate, List.map_map]
    congr 1
    apply List.map_congr_left
    intro p _
    by_cases h : p.id = paymentId <;> simp [Function.comp, h]
  · intro hall
    have hmap : ∀ p ∈ s.payments,
        (if p.id == paymentId then { p with status := PaymentStatus.paid } else p) = id p := by
      intro p hp
      by_cases h : p.id = paymentId
      · have := hall p hp h
        cases p
        simp_all
      · simp [h]
    unfold markPaymentAsPaidUpdate
    rw [List.map_congr_left hmap, List.map_id]

/-- Witness for C10: the seed store's payment 4 is already paid, so marking
id 4 as paid leaves the entire store unchanged. -/
theorem markPaymentAsPaid_frame_witness :
    markPaymentAsPaidUpdate initialStore 4 = initialStore :=
  (markPaymentAsPaid_frame initialStore 4).2.2.2.2.2 (by decide)

end FinanceTracker
